import Mathlib

/-
Verification of the ultra_pro_rescuenet repository.

The repository consists of three Python patch scripts
(src/fix_connection_manager.py, src/fix_go_ip_v2.py, src/fix_go_ip_v3.py)
that edit an Android ConnectionManager.kt in place.  The substantive
program logic (connect-retry policy, multi-stage client-IP resolution,
MAC-free ARP lookup, parallel subnet scan) lives in the Kotlin text that
the scripts splice into the file (the string constants new_retry_lines,
new_launch_block, new_with_fallback, new_scan, new_first_scope,
new_second_scope).  This development embeds

  1. the Kotlin logic carried by those constants (namespaces ConnMgr,
     Resolver, Scan, Teardown, Arp, Watcher), and
  2. the patch scripts themselves as file-transformers with an explicit
     trace of filesystem events (namespace Patch),

and proves the behavioural claims about them.  Kotlin callback/coroutine
effects are modelled as explicit effect records and event traces; the
outcomes of external collaborators (the WifiP2pManager ActionListeners,
the OS ARP cache, reachability probes) are inputs to the embedded
functions.
-/

set_option maxRecDepth 16384

namespace RescueNet

/-- A connected peer of the P2P group.  Per the data model of the spec, the
resolved IP is optional and write-once.  The deviceAddress field is the
opaque peer identity. -/
structure ConnectedClient where
  deviceAddress : String
  resolvedIp : Option String := none
  deriving DecidableEq

/-- Group information as delivered by requestGroupInfo: the ordered list of
connected clients. -/
structure GroupInfo where
  clients : List ConnectedClient
  deriving DecidableEq

namespace ConnMgr

/- Embedding of the connect-error retry policy of initiateConnection.
The retry branch is translated from new_retry_lines in
src/fix_connection_manager.py (lines 68-90): log the error, call
manager.discoverPeers with a log-only ActionListener, then
scope.launch a delayed re-invocation of initiateConnection with
connectAttempt + 1 after PEER_REDISCOVERY_DELAY_MS. -/

/-- Value taken from src/fix_connection_manager.py (new_const, line 28):
private const val PEER_REDISCOVERY_DELAY_MS = 3500L. -/
def PEER_REDISCOVERY_DELAY_MS : Nat := 3500

/-- Modelled from the spec: MAX_CONNECT_RETRIES is defined in the Kotlin
file, which is not under src; the src snippet only interpolates it into a
log message.  Scenario 1 of the spec shows attempt counters rendered as
"attempt 1/3", fixing the value at 3.  The claims proved below use the
symbol, not the numeral. -/
def MAX_CONNECT_RETRIES : Nat := 3

/-- Log events emitted by the retry branch.  The log text is abstracted to
a tagged event; the tags follow the four Log calls of new_retry_lines. -/
inductive LogMsg where
  | connectError (attempt : Nat)
  | refreshingPeers
  | refreshTriggered
  | refreshFailed (code2 : Int)
  deriving DecidableEq

/-- Observable effects of handling one connect error. -/
structure RetryEffects where
  discoverPeersCalls : Nat
  scheduledRetry : Option (Nat × Nat)
  failureCalls : Nat
  logs : List LogMsg
  deriving DecidableEq

/-- Translation of new_retry_lines (src/fix_connection_manager.py lines
68-90): one discoverPeers call whose ActionListener only logs (its outcome
is the discoverResult input), then unconditionally one scope.launch that
delays PEER_REDISCOVERY_DELAY_MS and re-invokes initiateConnection with
connectAttempt + 1.  scheduledRetry records (delay, next attempt). -/
def retryBranch (connectAttempt : Nat) (discoverResult : Except Int Unit) : RetryEffects :=
  { discoverPeersCalls := 1
    scheduledRetry := some (PEER_REDISCOVERY_DELAY_MS, connectAttempt + 1)
    failureCalls := 0
    logs := [LogMsg.connectError connectAttempt, LogMsg.refreshingPeers] ++
      (match discoverResult with
        | Except.ok _ => [LogMsg.refreshTriggered]
        | Except.error code2 => [LogMsg.refreshFailed code2]) }

/-- Modelled from the spec: the guard around the retry branch and the
terminal-failure branch live in the Kotlin file, not in src (section 4.1:
if attempt is below MAX_CONNECT_RETRIES, rediscover and retry; otherwise
invoke the failure callback exactly once).  The retry branch itself is the
src translation retryBranch. -/
def onConnectError (attempt : Nat) (discoverResult : Except Int Unit) : RetryEffects :=
  if attempt < MAX_CONNECT_RETRIES then
    retryBranch attempt discoverResult
  else
    { discoverPeersCalls := 0
      scheduledRetry := none
      failureCalls := 1
      logs := [LogMsg.connectError attempt] }

end ConnMgr

namespace Resolver

/- Embedding of the client-IP resolution pipeline, translated from
new_second_scope in src/fix_go_ip_v3.py (lines 114-161); the identical
text also appears as new_launch_block in src/fix_go_ip_v2.py (lines
61-108).  The pipeline runs, in order: delay(DHCP_SETTLE_DELAY_MS);
clientIp = resolveIpFromArp(targetClient.deviceAddress); if null,
clientIp = resolveAnyP2pClientFromArp(); if still null, up to three
retries of resolveAnyP2pClientFromArp each preceded by delay(2000L); if
still null, clientIp = discoverP2pClientIp().  Every later stage is
guarded by: if (clientIp == null). -/

/-- Modelled from the spec: DHCP_SETTLE_DELAY_MS is defined in the Kotlin
file, not in src; the src snippet only passes it to delay.  The claims
below do not depend on its value. -/
def DHCP_SETTLE_DELAY_MS : Nat := 5000

/-- The four resolution stages.  arpRetry k is the k-th iteration
(k = 1, 2, 3) of the ARP retry loop. -/
inductive StageId where
  | macArp
  | macFreeArp
  | arpRetry (k : Nat)
  | subnetScan
  deriving DecidableEq

/-- Events of one pipeline run: suspensions and stage executions. -/
inductive REv where
  | delay (ms : Nat)
  | call (s : StageId)
  deriving DecidableEq

/-- The environment a run executes against: the result the MAC-based ARP
lookup would produce, the result of the k-th call of the MAC-free ARP
lookup (the ARP cache changes over time, so each call gets its own
snapshot; call 0 is stage 2, calls 1..3 are the retry loop), and the
result of the subnet scan. -/
structure ResolveEnv where
  macArp : Option String
  arpSnapshots : Nat → Option String
  scan : Option String

/-- One iteration of the Kotlin retry loop, for (retryArp in 1..3):
delay(2000L); clientIp = resolveAnyP2pClientFromArp(); if (clientIp !=
null) break.  A state that already holds an IP passes through unchanged
(the break of an earlier iteration). -/
def arpRetryStep (env : ResolveEnv) (k : Nat) :
    Option String × List REv → Option String × List REv
  | (some ip, tr) => (some ip, tr)
  | (none, tr) => (env.arpSnapshots k, tr ++ [REv.delay 2000, REv.call (StageId.arpRetry k)])

/-- The resolution pipeline of new_second_scope with its trace.  The
stages after the first are each guarded by: if (clientIp == null); the
retry loop is the three unrolled iterations of for (retryArp in 1..3). -/
def resolvePipeline (env : ResolveEnv) : Option String × List REv :=
  let st0 : Option String × List REv :=
    (env.macArp, [REv.delay DHCP_SETTLE_DELAY_MS, REv.call StageId.macArp])
  let st1 :=
    match st0 with
    | (none, tr) => (env.arpSnapshots 0, tr ++ [REv.call StageId.macFreeArp])
    | st => st
  let st2 :=
    match st1 with
    | (none, tr) => arpRetryStep env 3 (arpRetryStep env 2 (arpRetryStep env 1 (none, tr)))
    | st => st
  match st2 with
  | (none, tr) => (env.scan, tr ++ [REv.call StageId.subnetScan])
  | st => st

/-- Modelled from the spec (reference order for the refinement theorem):
the total stage order MAC-ARP, MAC-free ARP, ARP retry 1..3, subnet scan,
paired with the value each stage would produce in the given environment. -/
def stageList (env : ResolveEnv) : List (StageId × Option String) :=
  [(StageId.macArp, env.macArp),
   (StageId.macFreeArp, env.arpSnapshots 0),
   (StageId.arpRetry 1, env.arpSnapshots 1),
   (StageId.arpRetry 2, env.arpSnapshots 2),
   (StageId.arpRetry 3, env.arpSnapshots 3),
   (StageId.subnetScan, env.scan)]

/-- Modelled from the spec: the resolver returns the value of the earliest
stage that succeeds. -/
def specResolve (env : ResolveEnv) : Option String :=
  (stageList env).findSome? (fun p => p.2)

/-- The stages executed: every stage up to and including the first one
that succeeds, or all of them when none succeeds. -/
def takeToFirstHit : List (StageId × Option String) → List StageId
  | [] => []
  | (s, some _) :: _ => [s]
  | (s, none) :: rest => s :: takeToFirstHit rest

/-- Modelled from the spec: the stages a run executes under the
earliest-success discipline. -/
def specExecuted (env : ResolveEnv) : List StageId :=
  takeToFirstHit (stageList env)

/-- The events one stage execution contributes: each ARP retry is preceded
by a 2000 ms delay; the other stages are plain calls (the DHCP settle
delay is accounted once at the start of the run). -/
def stageEvents : StageId → List REv
  | StageId.arpRetry k => [REv.delay 2000, REv.call (StageId.arpRetry k)]
  | s => [REv.call s]

/-- Concatenation of the per-stage events. -/
def stageEventsConcat : List StageId → List REv
  | [] => []
  | s :: rest => stageEvents s ++ stageEventsConcat rest

/-- Modelled from the spec: the full expected trace of a run. -/
def specTrace (env : ResolveEnv) : List REv :=
  REv.delay DHCP_SETTLE_DELAY_MS :: stageEventsConcat (specExecuted env)

/-- Modelled from the spec: resolving a client consults the write-once
stored IP first (data model, section 3: optional resolved IP, set exactly
once, never overwritten; testable property: resolving an already-resolved
client a second time returns the previously stored IP without re-running
any stage).  The ConnectedClient storage is not part of the src snippets -
they contain only the stage pipeline, embedded above as resolvePipeline -
so the memoising wrapper is modelled from the spec, the guarded pipeline
from src.  Returns the updated client, the produced IP and the run
trace. -/
def resolveClient (c : ConnectedClient) (env : ResolveEnv) :
    ConnectedClient × Option String × List REv :=
  match c.resolvedIp with
  | some ip => (c, some ip, [])
  | none =>
    let r := resolvePipeline env
    ({ c with resolvedIp := r.1 }, r.1, r.2)

end Resolver

namespace Scan

/- Embedding of the parallel subnet scanner, translated from new_scan in
src/fix_go_ip_v2.py (lines 184-213): batchSize = 25; for (batchStart in
2..254 step batchSize) with batchEnd = minOf(batchStart + batchSize - 1,
254); each address of the batch is probed concurrently with
addr.isReachable(500); results = deferreds.mapNotNull; if nonempty the
first result is returned, otherwise the next batch is tried; null after
the last batch. -/

/-- Per-probe timeout passed to isReachable (new_scan line 197). -/
def PROBE_TIMEOUT_MS : Nat := 500

/-- Batch size (new_scan line 189). -/
def batchSize : Nat := 25

/-- Enumeration lo, lo+step, ... while at most hi, the meaning of the
Kotlin range lo..hi step s.  The fuel argument only bounds the recursion;
stepRange supplies hi + 1 - lo, enough for any positive step. -/
def stepRangeAux (hi step : Nat) : Nat → Nat → List Nat
  | _, 0 => []
  | lo, fuel + 1 => if lo ≤ hi then lo :: stepRangeAux hi step (lo + step) fuel else []

/-- Kotlin lo..hi step s. -/
def stepRange (lo hi step : Nat) : List Nat :=
  stepRangeAux hi step lo (hi + 1 - lo)

/-- The batch start addresses: for (batchStart in 2..254 step batchSize). -/
def batchStarts : List Nat := stepRange 2 254 batchSize

/-- The visited batches with their ends:
batchEnd = minOf(batchStart + batchSize - 1, 254). -/
def scanBatches : List (Nat × Nat) :=
  batchStarts.map (fun s => (s, min (s + batchSize - 1) 254))

/-- The host octets of one batch: batchStart..batchEnd. -/
def batchHosts (b : Nat × Nat) : List Nat :=
  List.range' b.1 (b.2 - b.1 + 1)

/-- The probe oracle: reachable i t is the outcome of
InetAddress("192.168.49.i").isReachable(t). -/
structure ProbeEnv where
  reachable : Nat → Nat → Bool

/-- The candidate address string "192.168.49.$i". -/
def ipOfHost (i : Nat) : String := "192.168.49." ++ toString i

/-- The joint await of one batch: deferreds.mapNotNull, in address order -
each probe yields candidateIp when reachable, null otherwise. -/
def probeResults (env : ProbeEnv) (b : Nat × Nat) : List String :=
  (batchHosts b).filterMap
    (fun i => if env.reachable i PROBE_TIMEOUT_MS then some (ipOfHost i) else none)

/-- The batch loop: probe a batch, return results.first() when nonempty,
otherwise continue with the next batch; null after the last.  Also
returns the list of issued probes (host, timeout). -/
def scanGo (env : ProbeEnv) : List (Nat × Nat) → Option String × List (Nat × Nat)
  | [] => (none, [])
  | b :: bs =>
    let probes := (batchHosts b).map (fun i => (i, PROBE_TIMEOUT_MS))
    match probeResults env b with
    | r :: _ => (some r, probes)
    | [] =>
      let rest := scanGo env bs
      (rest.1, probes ++ rest.2)

/-- discoverP2pClientIp: run the batch loop over all batches. -/
def discoverP2pClientIp (env : ProbeEnv) : Option String × List (Nat × Nat) :=
  scanGo env scanBatches

/-- Whether host octet i answers a probe with the fixed timeout. -/
def reachHit (env : ProbeEnv) (i : Nat) : Bool :=
  env.reachable i PROBE_TIMEOUT_MS

/-- Modelled from the spec (reference value for the refinement theorem):
the scanner result is the first reachable address of the whole host range
2..254 - equivalently, the first reachable address of the first batch
containing one, since the batches tile the range in ascending order. -/
def specScanResult (env : ProbeEnv) : Option String :=
  (((List.range' 2 253).filter (reachHit env)).head?).map ipOfHost

/-- The batches visited: every batch up to and including the first one
containing a reachable address. -/
def batchesUntilHit (env : ProbeEnv) : List (Nat × Nat) → List (Nat × Nat)
  | [] => []
  | b :: bs =>
    if (batchHosts b).any (reachHit env) then [b]
    else b :: batchesUntilHit env bs

/-- Modelled from the spec: all probes issued - every address of every
visited batch, each with the fixed 500 ms timeout. -/
def specProbes (env : ProbeEnv) : List (Nat × Nat) :=
  ((batchesUntilHit env scanBatches).map
    (fun b => (batchHosts b).map (fun i => (i, PROBE_TIMEOUT_MS)))).flatten

end Scan

namespace Teardown

/- Embedding of the completion branch of new_second_scope
(src/fix_go_ip_v3.py lines 144-160, identically src/fix_go_ip_v2.py lines
91-106): a resolved IP is delivered by onConnected(clientIp); a null IP
triggers manager.removeGroup whose ActionListener invokes
onFailure("Could not resolve client IP") on success and
onFailure("Could not resolve client IP, cleanup failed") on failure. -/

/-- Caller-visible events of completing a resolution run, in order. -/
inductive CompEv where
  | onConnected (ip : String)
  | removeGroup
  | onFailure (msg : String)
  deriving DecidableEq

/-- The failure message: the teardown outcome is folded into the message
(new_second_scope lines 155-156). -/
def cleanupMsg : Except Int Unit → String
  | Except.ok _ => "Could not resolve client IP"
  | Except.error _ => "Could not resolve client IP, cleanup failed"

/-- The completion branch: if (clientIp != null) onConnected(clientIp)
else removeGroup followed by the listener's single onFailure.
removeGroupResult is the outcome the platform reports to the
ActionListener. -/
def completeResolution (clientIp : Option String) (removeGroupResult : Except Int Unit) :
    List CompEv :=
  match clientIp with
  | some ip => [CompEv.onConnected ip]
  | none =>
    CompEv.removeGroup ::
      (match removeGroupResult with
        | Except.ok _ => [CompEv.onFailure "Could not resolve client IP"]
        | Except.error _ => [CompEv.onFailure "Could not resolve client IP, cleanup failed"])

/-- Recogniser for failure-callback events. -/
def isFailureEv : CompEv → Bool
  | CompEv.onFailure _ => true
  | _ => false

/-- Recogniser for success-callback events. -/
def isConnectedEv : CompEv → Bool
  | CompEv.onConnected _ => true
  | _ => false

end Teardown

namespace Arp

/- Embedding of resolveAnyP2pClientFromArp, translated from
new_with_fallback in src/fix_go_ip_v2.py (lines 116-143): read
/proc/net/arp inside try/catch; for each line take the first
whitespace-separated field as ip (continue when absent); return ip when
ip.startsWith("192.168.49.") and ip != "192.168.49.1"; null after the
loop; null from the catch block.

The rows are modelled parsed: a row is some ip when its first field is a
canonical dotted-quad IP, none when the field is absent or not an address
(the continue / no-match cases of text that is not an IP).  On canonical
dotted quads, startsWith "192.168.49." holds exactly when the first three
octets are 192, 168, 49, and the further test against "192.168.49.1"
then fails exactly when the last octet is 1. -/

/-- A dotted-quad IP value. -/
structure Ip4 where
  a : Nat
  b : Nat
  c : Nat
  d : Nat
  deriving DecidableEq

/-- The group owner's own address 192.168.49.1. -/
def groupOwnerIp : Ip4 := ⟨192, 168, 49, 1⟩

/-- The test of the Kotlin loop body on a row's ip:
ip.startsWith("192.168.49.") && ip != "192.168.49.1". -/
def arpClientCheck (ip : Ip4) : Bool :=
  ip.a == 192 && ip.b == 168 && ip.c == 49 && ip.d != 1

/-- The scan loop of resolveAnyP2pClientFromArp over the (parsed) rows of
the ARP cache text: rows without a parseable first field are skipped
(continue), the first row passing arpClientCheck is returned, null when
the loop ends. -/
def resolveAnyP2pClientFromArp : List (Option Ip4) → Option Ip4
  | [] => none
  | none :: rest => resolveAnyP2pClientFromArp rest
  | some ip :: rest =>
    if arpClientCheck ip then some ip else resolveAnyP2pClientFromArp rest

/-- The whole function body including the try/catch: a failed read of
/proc/net/arp lands in the catch block, which logs and returns null. -/
def resolveAnyP2pClientFromArpRead (readResult : Except String (List (Option Ip4))) :
    Option Ip4 :=
  match readResult with
  | Except.error _ => none
  | Except.ok rows => resolveAnyP2pClientFromArp rows

/-- Modelled from the spec (reference predicate for the refinement
theorem): membership of the group subnet 192.168.49.0/24. -/
def inP2pSubnet (ip : Ip4) : Bool :=
  ip.a == 192 && ip.b == 168 && ip.c == 49

/-- Modelled from the spec: the first ARP entry whose IP lies in the group
subnet and differs from the group owner's own address. -/
def specFirstClient (rows : List (Option Ip4)) : Option Ip4 :=
  (rows.filterMap id).find? (fun ip => inP2pSubnet ip && ip != groupOwnerIp)

end Arp

namespace Watcher

/- Embedding of the group-formation watcher step of
resolveClientIpFromGroup.  The group-unavailable branch is translated
from new_first_scope in src/fix_go_ip_v3.py (lines 56-61): scope.launch,
delay(CONNECTION_RETRY_DELAY_MS), re-invoke resolveClientIpFromGroup with
attempt + 1. -/

/-- Modelled from the spec: CONNECTION_RETRY_DELAY_MS is defined in the
Kotlin file, not in src; new_first_scope only passes it to delay.  The
claims below use the symbol, not the numeral. -/
def CONNECTION_RETRY_DELAY_MS : Nat := 1000

/-- The watcher's possible next steps. -/
inductive WatcherAction where
  | retry (delayMs : Nat) (nextAttempt : Nat)
  | failClientNotFound
  | resolveFor (c : ConnectedClient)
  deriving DecidableEq

/-- Modelled from the spec: the requestGroupInfo callback of
resolveClientIpFromGroup.  The unavailable (null) branch is the src
translation of new_first_scope: retry after CONNECTION_RETRY_DELAY_MS
with attempt + 1, with no attempt cap.  The available branch - locate the
target client by device address, immediate ClientNotFound failure when
absent - is modelled from spec section 4.2; of it src contains only the
search marker "val targetClient = clients.firstOrNull" in
src/fix_go_ip_v3.py line 75. -/
def resolveClientIpFromGroupStep (group : Option GroupInfo) (peerAddress : String)
    (attempt : Nat) : WatcherAction :=
  match group with
  | none => WatcherAction.retry CONNECTION_RETRY_DELAY_MS (attempt + 1)
  | some g =>
    match g.clients.find? (fun c => c.deviceAddress == peerAddress) with
    | none => WatcherAction.failClientNotFound
    | some c => WatcherAction.resolveFor c

end Watcher

namespace Patch

/- Embedding of the three patch scripts as file transformers.  Each script
reads the target file once, performs every edit on the in-memory string,
calls sys.exit(1) when a required marker is absent, and writes the file
back exactly once at the very end.  The embedding works on the character
list of the file content with Python-faithful helpers, and returns the
trace of filesystem events (one read; one final write unless the script
exited) together with the process exit code.  A Python run that dies on
an uncaught exception also terminates with exit status 1 without reaching
the write; the one spot where that can happen instead of an explicit
sys.exit(1) is noted inline. -/

/-- Opening brace character (written via its code point). -/
def lbrace : Char := Char.ofNat 123

/-- Closing brace character (written via its code point). -/
def rbrace : Char := Char.ofNat 125

/-- Newline character. -/
def nlChar : Char := Char.ofNat 10

/-- Carriage-return character. -/
def crChar : Char := Char.ofNat 13

/-- Python substring containment, pat in hay. -/
def listContains (pat : List Char) : List Char → Bool
  | [] => pat.isEmpty
  | c :: rest => pat.isPrefixOf (c :: rest) || listContains pat rest

/-- Python str.replace(pat, rep, 1) for a non-empty pattern: replace the
leftmost occurrence only. -/
def replaceFirstL (pat rep : List Char) : List Char → List Char
  | [] => []
  | c :: rest =>
    if pat.isPrefixOf (c :: rest) then rep ++ (c :: rest).drop pat.length
    else c :: replaceFirstL pat rep rest

/-- Worker for replaceAllL.  The fuel only bounds the recursion; every
step consumes at least one character of the haystack when the pattern is
non-empty, so the haystack length is enough fuel. -/
def replaceAllAux (pat rep : List Char) : Nat → List Char → List Char
  | 0, hay => hay
  | _ + 1, [] => []
  | fuel + 1, c :: rest =>
    if pat.isPrefixOf (c :: rest) then
      rep ++ replaceAllAux pat rep fuel ((c :: rest).drop pat.length)
    else c :: replaceAllAux pat rep fuel rest

/-- Python str.replace(pat, rep) for a non-empty pattern: replace all
occurrences, scanning left to right without overlap. -/
def replaceAllL (pat rep hay : List Char) : List Char :=
  replaceAllAux pat rep hay.length hay

/-- Python content.split(chr(10)): split at every newline, keeping empty
pieces; the empty content yields one empty line. -/
def splitLines : List Char → List (List Char)
  | [] => [[]]
  | c :: rest =>
    match splitLines rest with
    | [] => [[]]
    | g :: gs => if c = nlChar then [] :: g :: gs else (c :: g) :: gs

/-- Python chr(10).join(lines). -/
def joinLines : List (List Char) → List Char
  | [] => []
  | [g] => g
  | g :: gs => g ++ nlChar :: joinLines gs

/-- Python str.strip(): drop leading and trailing whitespace. -/
def trimL (cs : List Char) : List Char :=
  ((cs.dropWhile Char.isWhitespace).reverse.dropWhile Char.isWhitespace).reverse

/-- First index at or after i whose line satisfies p, the enumerate-based
marker searches of the scripts. -/
def findLineIdx (p : List Char → Bool) : List (List Char) → Nat → Option Nat
  | [], _ => none
  | l :: ls, i => if p l then some i else findLineIdx p ls (i + 1)

/-- First index of the Python range(lo, hi) whose line satisfies p, for
the bounded searches range(start, min(start + k, len(lines))). -/
def findIdxInRange (lines : List (List Char)) (lo hi : Nat) (p : List Char → Bool) :
    Option Nat :=
  (List.range' lo (hi - lo)).find? (fun i => p (lines.getD i []))

/-- The per-line character walk of the brace matcher: raise the depth at
every opening brace, lower it at every closing brace, and stop as soon as
the depth reaches zero at a closing brace (the Python inner break). -/
def braceScanLine : Int → List Char → Sum Unit Int
  | d, [] => Sum.inr d
  | d, c :: rest =>
    if c = lbrace then braceScanLine (d + 1) rest
    else if c = rbrace then
      if d - 1 = 0 then Sum.inl () else braceScanLine (d - 1) rest
    else braceScanLine d rest

/-- The line loop of the brace matcher, returning the index of the line on
which the depth reached zero. -/
def findBraceEndFrom (d : Int) (i : Nat) : List (List Char) → Option Nat
  | [] => none
  | l :: ls =>
    match braceScanLine d l with
    | Sum.inl _ => some i
    | Sum.inr d2 => findBraceEndFrom d2 (i + 1) ls

/-- The brace matcher of fix_go_ip_v2 fix 1 and of both fix_go_ip_v3
steps: scan from line start with depth 0. -/
def findBraceEnd (lines : List (List Char)) (start : Nat) : Option Nat :=
  findBraceEndFrom 0 start (lines.drop start)

/-- The flagged per-line walk used by the discoverP2pClientIp search of
fix_go_ip_v2: a zero crossing only counts after some opening brace was
seen (found_first_brace). -/
def braceScanLineFlag : Bool → Int → List Char → Sum Unit (Bool × Int)
  | flag, d, [] => Sum.inr (flag, d)
  | flag, d, c :: rest =>
    if c = lbrace then braceScanLineFlag true (d + 1) rest
    else if c = rbrace then
      if flag ∧ d - 1 = 0 then Sum.inl ()
      else braceScanLineFlag flag (d - 1) rest
    else braceScanLineFlag flag d rest

/-- Line loop of the flagged brace matcher. -/
def findBraceEndFlagFrom (flag : Bool) (d : Int) (i : Nat) :
    List (List Char) → Option Nat
  | [] => none
  | l :: ls =>
    match braceScanLineFlag flag d l with
    | Sum.inl _ => some i
    | Sum.inr fd => findBraceEndFlagFrom fd.1 fd.2 (i + 1) ls

/-- The flagged brace matcher, starting with depth 0 and no brace seen. -/
def findBraceEndFlag (lines : List (List Char)) (start : Nat) : Option Nat :=
  findBraceEndFlagFrom false 0 start (lines.drop start)

/-- Python slice assignment lines[s : e + 1] = rep. -/
def pySpliceAssign (xs : List (List Char)) (s e : Nat) (rep : List (List Char)) :
    List (List Char) :=
  xs.take s ++ rep ++ xs.drop (e + 1)

/-- Filesystem events a script performs on its target file. -/
inductive FsEvent where
  | read
  | write (content : String)
  deriving DecidableEq

/-- The observable outcome of one script run: the ordered filesystem
events and the process exit code. -/
structure RunResult where
  events : List FsEvent
  exitCode : Nat
  deriving DecidableEq

/-- Outcome of a run that called sys.exit(1) (or died on an uncaught
exception) after the initial read and before any write. -/
def exitRun : RunResult := ⟨[FsEvent.read], 1⟩

/-- Outcome of a run that reached the end: the single write-back of the
edited content, exit status 0. -/
def writeRun (out : List Char) : RunResult :=
  ⟨[FsEvent.read, FsEvent.write (String.mk out)], 0⟩

/-- The line-ending normalisation all three scripts start with:
content.replace(chr(13) ++ chr(10), chr(10)). -/
def normalizeNl (cs : List Char) : List Char :=
  replaceAllL [crChar, nlChar] [nlChar] cs


-- Constants extracted from src/fix_connection_manager.py
def old_interp : String := "$\x7b\x27$\x27\x7d\x7b"

def new_interp : String := "$\x7b"

def old_const : String := "private const val CONNECT_RETRY_DELAY_MS = 2000L"

def new_const : String := "private const val CONNECT_RETRY_DELAY_MS = 2000L\n        private const val PEER_REDISCOVERY_DELAY_MS = 3500L"

def fcMarkerCleanup : String := "cleaning up before retry..."

def fcMarkerRetryingAnyway : String := "retrying anyway"

def fcCloseParen : String := "\x7d)"

def new_retry_lines : List String := [
  "                    Log.w(TAG, \"⚠️ connect() returned $errorMsg (attempt $connectAttempt/$MAX_CONNECT_RETRIES)\")",
  "                    Log.d(TAG, \"🔄 Refreshing peer discovery before retry...\")",
  "",
  "                    // When connect() returns ERROR, the peer is likely absent from",
  "                    // the framework\x27s discovered peer cache (cleared after disconnect).",
  "                    // Trigger discoverPeers() to refresh the cache before retrying.",
  "                    manager.discoverPeers(channel, object : WifiP2pManager.ActionListener \x7b",
  "                        override fun onSuccess() \x7b",
  "                            Log.d(TAG, \"✅ Peer discovery refresh triggered\")",
  "                        \x7d",
  "                        override fun onFailure(code2: Int) \x7b",
  "                            Log.w(TAG, \"⚠️ Peer discovery refresh failed: $\x7bgetErrorMessage(code2)\x7d\")",
  "                        \x7d",
  "                    \x7d)",
  "",
  "                    scope.launch \x7b",
  "                        delay(PEER_REDISCOVERY_DELAY_MS)",
  "                        withContext(Dispatchers.Main) \x7b",
  "                            initiateConnection(deviceAddress, onConnected, onFailure, connectAttempt + 1)",
  "                        \x7d",
  "                    \x7d"
]

-- Constants extracted from src/fix_go_ip_v2.py
def v2MarkerResolveFunc : String := "private fun resolveClientIpFromGroup("

def v2MarkerScopeLaunch : String := "scope.launch \x7b"

def new_launch_block : List String := [
  "            scope.launch \x7b",
  "                Log.d(TAG, \"\\u23f3 Waiting $\x7bDHCP_SETTLE_DELAY_MS\x7dms for client DHCP to settle...\")",
  "                delay(DHCP_SETTLE_DELAY_MS)",
  "",
  "                // Step 1: Try MAC-based ARP lookup (works if MAC not randomized)",
  "                var clientIp = resolveIpFromArp(targetClient.deviceAddress)",
  "",
  "                // Step 2: MAC-free ARP - find any 192.168.49.x that is not .1 (us)",
  "                // P2P device MAC != P2P interface MAC (Android randomizes them)",
  "                if (clientIp == null) \x7b",
  "                    Log.d(TAG, \"\\U0001f504 MAC-based ARP failed, trying MAC-free ARP...\")",
  "                    clientIp = resolveAnyP2pClientFromArp()",
  "                \x7d",
  "",
  "                // Step 3: ARP retry with delay (DHCP may still be settling)",
  "                if (clientIp == null) \x7b",
  "                    for (retryArp in 1..3) \x7b",
  "                        Log.w(TAG, \"\\u26a0\\ufe0f ARP miss, retrying in 2s (attempt $retryArp/3)...\")",
  "                        delay(2000L)",
  "                        clientIp = resolveAnyP2pClientFromArp()",
  "                        if (clientIp != null) break",
  "                    \x7d",
  "                \x7d",
  "",
  "                // Step 4: Parallel subnet scan (.2 to .254)",
  "                if (clientIp == null) \x7b",
  "                    clientIp = discoverP2pClientIp()",
  "                \x7d",
  "",
  "                if (clientIp != null) \x7b",
  "                    Log.d(TAG, \"\\u2550\\u2550\\u2550\\u2550\\u2550\\u2550\\u2550\\u2550\\u2550\\u2550\\u2550\\u2550\\u2550\\u2550\\u2550\\u2550\\u2550\\u2550\\u2550\\u2550\\u2550\\u2550\\u2550\\u2550\\u2550\\u2550\\u2550\\u2550\\u2550\\u2550\\u2550\\u2550\\u2550\\u2550\\u2550\")",
  "                    Log.d(TAG, \"\\u2705 CONNECTED (GO mode) - Client IP: $clientIp\")",
  "                    Log.d(TAG, \"\\u2550\\u2550\\u2550\\u2550\\u2550\\u2550\\u2550\\u2550\\u2550\\u2550\\u2550\\u2550\\u2550\\u2550\\u2550\\u2550\\u2550\\u2550\\u2550\\u2550\\u2550\\u2550\\u2550\\u2550\\u2550\\u2550\\u2550\\u2550\\u2550\\u2550\\u2550\\u2550\\u2550\\u2550\\u2550\")",
  "                    withContext(Dispatchers.Main) \x7b",
  "                        onConnected(clientIp)",
  "                    \x7d",
  "                \x7d else \x7b",
  "                    Log.e(TAG, \"\\u274c Could not resolve client IP from ARP table or subnet scan\")",
  "                    withContext(Dispatchers.Main) \x7b",
  "                        manager.removeGroup(channel, object : WifiP2pManager.ActionListener \x7b",
  "                            override fun onSuccess() \x7b onFailure(\"Could not resolve client IP\") \x7d",
  "                            override fun onFailure(code: Int) \x7b onFailure(\"Could not resolve client IP, cleanup failed\") \x7d",
  "                        \x7d)",
  "                    \x7d",
  "                \x7d",
  "            \x7d"
]

def old_marker : String := "    private fun resolveIpFromArp(macAddress: String): String? \x7b"

def new_with_fallback : String := "    /**\n     * MAC-free ARP lookup: find any P2P client in 192.168.49.x subnet.\n     * P2P device address (WifiP2pDevice.deviceAddress) is NOT the same as\n     * the interface MAC visible in ARP table. Android randomizes P2P MACs.\n     * Since we are GO (192.168.49.1), any other 192.168.49.x is our client.\n     */\n    private fun resolveAnyP2pClientFromArp(): String? \x7b\n        try \x7b\n            val arpTable = java.io.File(\"/proc/net/arp\").readText()\n            Log.d(TAG, \"📋 ARP table:\\n$arpTable\")\n\n            for (line in arpTable.lines()) \x7b\n                val parts = line.trim().split(\"\\\\s+\".toRegex())\n                val ip = parts.firstOrNull() ?: continue\n                if (ip.startsWith(\"192.168.49.\") && ip != \"192.168.49.1\") \x7b\n                    Log.d(TAG, \"\\u2705 Found P2P client IP from ARP (MAC-free): $ip\")\n                    return ip\n                \x7d\n            \x7d\n            Log.w(TAG, \"\\u26a0\\ufe0f No P2P client found in ARP table\")\n            return null\n        \x7d catch (e: Exception) \x7b\n            Log.e(TAG, \"\\u274c Error reading ARP table: $\x7be.message\x7d\")\n            return null\n        \x7d\n    \x7d\n\n    private fun resolveIpFromArp(macAddress: String): String? \x7b"

def v2MarkerDiscover : String := "private suspend fun discoverP2pClientIp()"

def new_scan : List String := [
  "    private suspend fun discoverP2pClientIp(): String? \x7b",
  "        return withContext(Dispatchers.IO) \x7b",
  "            Log.d(TAG, \"\\U0001f50d Starting parallel subnet scan (192.168.49.2-254)...\")",
  "            // Parallel batches of 25 with 500ms timeout each",
  "            val batchSize = 25",
  "            for (batchStart in 2..254 step batchSize) \x7b",
  "                val batchEnd = minOf(batchStart + batchSize - 1, 254)",
  "                val deferreds = (batchStart..batchEnd).map \x7b i ->",
  "                    async \x7b",
  "                        val candidateIp = \"192.168.49.$i\"",
  "                        try \x7b",
  "                            val addr = java.net.InetAddress.getByName(candidateIp)",
  "                            if (addr.isReachable(500)) candidateIp else null",
  "                        \x7d catch (e: Exception) \x7b",
  "                            null",
  "                        \x7d",
  "                    \x7d",
  "                \x7d",
  "                val results = deferreds.mapNotNull \x7b it.await() \x7d",
  "                if (results.isNotEmpty()) \x7b",
  "                    Log.d(TAG, \"\\u2705 Found reachable P2P client at $\x7bresults.first()\x7d (parallel subnet scan)\")",
  "                    return@withContext results.first()",
  "                \x7d",
  "            \x7d",
  "            Log.w(TAG, \"\\u26a0\\ufe0f No P2P client found in subnet scan (2-254)\")",
  "            null",
  "        \x7d",
  "    \x7d"
]

-- Constants extracted from src/fix_go_ip_v3.py
def v3MarkerGroupNull : String := "Group info null, retrying"

def new_first_scope : List String := [
  "                    scope.launch \x7b",
  "                        delay(CONNECTION_RETRY_DELAY_MS)",
  "                        resolveClientIpFromGroup(originalDeviceAddress, onConnected, onFailure, attempt + 1)",
  "                    \x7d"
]

def v3MarkerTargetClient : String := "val targetClient = clients.firstOrNull"

def v3MarkerScopeLaunch : String := "scope.launch"

def new_second_scope : List String := [
  "            scope.launch \x7b",
  "                Log.d(TAG, \"\\u23f3 Waiting $\x7bDHCP_SETTLE_DELAY_MS\x7dms for client DHCP to settle...\")",
  "                delay(DHCP_SETTLE_DELAY_MS)",
  "",
  "                // Step 1: Try MAC-based ARP lookup (works if MAC not randomized)",
  "                var clientIp = resolveIpFromArp(targetClient.deviceAddress)",
  "",
  "                // Step 2: MAC-free ARP - find any 192.168.49.x that is not .1 (us)",
  "                // P2P device MAC != P2P interface MAC (Android randomizes them)",
  "                if (clientIp == null) \x7b",
  "                    Log.d(TAG, \"\\U0001f504 MAC-based ARP failed, trying MAC-free ARP...\")",
  "                    clientIp = resolveAnyP2pClientFromArp()",
  "                \x7d",
  "",
  "                // Step 3: ARP retry with delay (DHCP may still be settling)",
  "                if (clientIp == null) \x7b",
  "                    for (retryArp in 1..3) \x7b",
  "                        Log.w(TAG, \"\\u26a0\\ufe0f ARP miss, retrying in 2s (attempt $retryArp/3)...\")",
  "                        delay(2000L)",
  "                        clientIp = resolveAnyP2pClientFromArp()",
  "                        if (clientIp != null) break",
  "                    \x7d",
  "                \x7d",
  "",
  "                // Step 4: Parallel subnet scan (.2 to .254)",
  "                if (clientIp == null) \x7b",
  "                    clientIp = discoverP2pClientIp()",
  "                \x7d",
  "",
  "                if (clientIp != null) \x7b",
  "                    Log.d(TAG, \"\\u2550\\u2550\\u2550\\u2550\\u2550\\u2550\\u2550\\u2550\\u2550\\u2550\\u2550\\u2550\\u2550\\u2550\\u2550\\u2550\\u2550\\u2550\\u2550\\u2550\\u2550\\u2550\\u2550\\u2550\\u2550\\u2550\\u2550\\u2550\\u2550\\u2550\\u2550\\u2550\\u2550\\u2550\\u2550\")",
  "                    Log.d(TAG, \"\\u2705 CONNECTED (GO mode) - Client IP: $clientIp\")",
  "                    Log.d(TAG, \"\\u2550\\u2550\\u2550\\u2550\\u2550\\u2550\\u2550\\u2550\\u2550\\u2550\\u2550\\u2550\\u2550\\u2550\\u2550\\u2550\\u2550\\u2550\\u2550\\u2550\\u2550\\u2550\\u2550\\u2550\\u2550\\u2550\\u2550\\u2550\\u2550\\u2550\\u2550\\u2550\\u2550\\u2550\\u2550\")",
  "                    withContext(Dispatchers.Main) \x7b",
  "                        onConnected(clientIp)",
  "                    \x7d",
  "                \x7d else \x7b",
  "                    Log.e(TAG, \"\\u274c Could not resolve client IP from ARP table or subnet scan\")",
  "                    withContext(Dispatchers.Main) \x7b",
  "                        manager.removeGroup(channel, object : WifiP2pManager.ActionListener \x7b",
  "                            override fun onSuccess() \x7b onFailure(\"Could not resolve client IP\") \x7d",
  "                            override fun onFailure(code: Int) \x7b onFailure(\"Could not resolve client IP, cleanup failed\") \x7d",
  "                        \x7d)",
  "                    \x7d",
  "                \x7d",
  "            \x7d"
]


/-- Fix 3 start search of fix_connection_manager.py (lines 41-45): first
line containing the cleanup marker. -/
def fc3FindStart (lines : List (List Char)) : Option Nat :=
  findLineIdx (fun l => listContains fcMarkerCleanup.data l) lines 0

/-- Fix 3 end search of fix_connection_manager.py (lines 49-59): within
30 lines of the start, the first line containing "retrying anyway", then
within the next 4 lines the first whose strip() equals the closing
bracket pair. -/
def fc3FindEnd (lines : List (List Char)) (start : Nat) : Option Nat :=
  match findIdxInRange lines start (min (start + 30) lines.length)
      (fun l => listContains fcMarkerRetryingAnyway.data l) with
  | none => none
  | some i =>
    findIdxInRange lines (i + 1) (min (i + 5) lines.length)
      (fun l => trimL l == fcCloseParen.data)

/-- The whole of src/fix_connection_manager.py: read; normalise line
endings; fix 1 replaces every interpolation escape (unchecked); fix 2
requires old_const and inserts new_const after it, sys.exit(1) otherwise;
fix 3 requires the retry block markers, sys.exit(1) otherwise, and
splices in new_retry_lines; finally the single write-back. -/
def runFixConnectionManager (file : String) : RunResult :=
  let content := normalizeNl file.data
  let content := replaceAllL old_interp.data new_interp.data content
  if listContains old_const.data content then
    let content := replaceFirstL old_const.data new_const.data content
    let lines := splitLines content
    match fc3FindStart lines with
    | none => exitRun
    | some s =>
      match fc3FindEnd lines s with
      | none => exitRun
      | some e =>
        let lines2 := pySpliceAssign lines s e (new_retry_lines.map String.data)
        writeRun (joinLines lines2)
  else exitRun

/-- The scope.launch search of fix_go_ip_v2.py (lines 27-33): one pass
over the enumerated lines; every line containing the
resolveClientIpFromGroup marker updates the remembered function start;
once a start is remembered, the first later line whose strip() equals
"scope.launch" followed by an opening brace is the answer. -/
def v2FindScope (marker scopeMarker : List Char) :
    Option Nat → Nat → List (List Char) → Option Nat
  | _, _, [] => none
  | rfs, i, l :: ls =>
    let rfs2 := if listContains marker l then some i else rfs
    match rfs2 with
    | some r =>
      if trimL l == scopeMarker ∧ r < i then some i
      else v2FindScope marker scopeMarker rfs2 (i + 1) ls
    | none => v2FindScope marker scopeMarker rfs2 (i + 1) ls

/-- The whole of src/fix_go_ip_v2.py: read; normalise; fix 1 locates the
scope.launch block of resolveClientIpFromGroup (sys.exit(1) when the
start or its matching brace is missing) and replaces it with
new_launch_block; fix 2 requires the resolveIpFromArp signature marker
(sys.exit(1) otherwise) and splices new_with_fallback over its first
occurrence; fix 3 locates discoverP2pClientIp and its matching brace
(sys.exit(1) otherwise) and replaces it with new_scan; finally the single
write-back. -/
def runFixGoIpV2 (file : String) : RunResult :=
  let content := normalizeNl file.data
  let lines := splitLines content
  match v2FindScope v2MarkerResolveFunc.data v2MarkerScopeLaunch.data none 0 lines with
  | none => exitRun
  | some scopeLine =>
    match findBraceEnd lines scopeLine with
    | none => exitRun
    | some scopeEnd =>
      let lines2 := pySpliceAssign lines scopeLine scopeEnd (new_launch_block.map String.data)
      let content2 := joinLines lines2
      if listContains old_marker.data content2 then
        let content3 := replaceFirstL old_marker.data new_with_fallback.data content2
        let lines3 := splitLines content3
        match findLineIdx (fun l => listContains v2MarkerDiscover.data l) lines3 0 with
        | none => exitRun
        | some scanStart =>
          match findBraceEndFlag lines3 scanStart with
          | none => exitRun
          | some scanEnd =>
            let lines4 := pySpliceAssign lines3 scanStart scanEnd (new_scan.map String.data)
            writeRun (joinLines lines4)
      else exitRun

/-- The whole of src/fix_go_ip_v3.py: read; normalise; step 1 finds the
"Group info null, retrying" line (sys.exit(1) when absent), treats the
next line as the start of the first scope.launch block, matches its
closing brace (when no line ever closes the block, first_scope_end stays
None in the Python and the later use of first_scope_end + 1 raises an
uncaught TypeError, which also terminates the process with status 1
before any write - modelled by the same exitRun), and splices in
new_first_scope; step 2 finds the targetClient line (sys.exit(1) when
absent), then within the next 10 lines the first line containing
scope.launch (sys.exit(1) when absent), matches its closing brace (same
uncaught-exception note), and splices in new_second_scope; finally the
single write-back. -/
def runFixGoIpV3 (file : String) : RunResult :=
  let content := normalizeNl file.data
  let lines := splitLines content
  match findLineIdx (fun l => listContains v3MarkerGroupNull.data l) lines 0 with
  | none => exitRun
  | some groupNullLine =>
    let firstScopeLine := groupNullLine + 1
    match findBraceEnd lines firstScopeLine with
    | none => exitRun
    | some firstScopeEnd =>
      let lines2 := pySpliceAssign lines firstScopeLine firstScopeEnd
        (new_first_scope.map String.data)
      let content2 := joinLines lines2
      let lines3 := splitLines content2
      match findLineIdx (fun l => listContains v3MarkerTargetClient.data l) lines3 0 with
      | none => exitRun
      | some targetClientLine =>
        match findIdxInRange lines3 targetClientLine (min (targetClientLine + 10) lines3.length)
            (fun l => listContains v3MarkerScopeLaunch.data l) with
        | none => exitRun
        | some secondScopeLine =>
          match findBraceEnd lines3 secondScopeLine with
          | none => exitRun
          | some secondScopeEnd =>
            let lines4 := pySpliceAssign lines3 secondScopeLine secondScopeEnd
              (new_second_scope.map String.data)
            writeRun (joinLines lines4)

/-- The contents written by a run, in order. -/
def writesOf (evs : List FsEvent) : List String :=
  evs.filterMap (fun e => match e with
    | FsEvent.write c => some c
    | FsEvent.read => none)

/-- Atomicity of a run: either it exited with status 1 having written
nothing, or it finished with status 0 and its whole event trace is the
initial read followed by exactly one write. -/
def atomicRun (r : RunResult) : Prop :=
  (r.exitCode = 1 ∧ writesOf r.events = []) ∨
  (r.exitCode = 0 ∧ ∃ out, r.events = [FsEvent.read, FsEvent.write out])

end Patch

/- ------------------------------------------------------------------ -/
/- Theorems -/
/- ------------------------------------------------------------------ -/

/-- C1: for every attempt in the range 1 to MAX_CONNECT_RETRIES - 1, a
connect error in initiateConnection triggers exactly one discoverPeers
call and schedules exactly one retry of initiateConnection with
attempt + 1 after PEER_REDISCOVERY_DELAY_MS = 3500 ms, without invoking
the failure callback; once attempt reaches MAX_CONNECT_RETRIES, a connect
error invokes the failure callback exactly once and neither schedules a
retry nor triggers rediscovery. -/
theorem connect_retry_policy (attempt : Nat) (r : Except Int Unit) :
    (1 ≤ attempt → attempt < ConnMgr.MAX_CONNECT_RETRIES →
      (ConnMgr.onConnectError attempt r).discoverPeersCalls = 1 ∧
      (ConnMgr.onConnectError attempt r).scheduledRetry =
        some (ConnMgr.PEER_REDISCOVERY_DELAY_MS, attempt + 1) ∧
      (ConnMgr.onConnectError attempt r).failureCalls = 0 ∧
      ConnMgr.PEER_REDISCOVERY_DELAY_MS = 3500) ∧
    (ConnMgr.MAX_CONNECT_RETRIES ≤ attempt →
      (ConnMgr.onConnectError attempt r).failureCalls = 1 ∧
      (ConnMgr.onConnectError attempt r).scheduledRetry = none ∧
      (ConnMgr.onConnectError attempt r).discoverPeersCalls = 0) := by
  constructor
  · intro _ h2
    simp [ConnMgr.onConnectError, h2, ConnMgr.retryBranch, ConnMgr.PEER_REDISCOVERY_DELAY_MS]
  · intro h
    have h2 : ¬ attempt < ConnMgr.MAX_CONNECT_RETRIES := by omega
    simp [ConnMgr.onConnectError, h2]

theorem connect_retry_policy_witness :
    ((1 : Nat) ≤ 1 ∧ 1 < ConnMgr.MAX_CONNECT_RETRIES ∧
      (ConnMgr.onConnectError 1 (Except.ok ())).scheduledRetry =
        some (ConnMgr.PEER_REDISCOVERY_DELAY_MS, 2) ∧
      (ConnMgr.onConnectError 1 (Except.ok ())).discoverPeersCalls = 1 ∧
      (ConnMgr.onConnectError 1 (Except.ok ())).failureCalls = 0) ∧
    (ConnMgr.MAX_CONNECT_RETRIES ≤ 3 ∧
      (ConnMgr.onConnectError 3 (Except.ok ())).failureCalls = 1 ∧
      (ConnMgr.onConnectError 3 (Except.ok ())).scheduledRetry = none) := by
  refine ⟨⟨le_refl 1, by decide, ?_, ?_, ?_⟩, by decide, ?_, ?_⟩
  · exact ((connect_retry_policy 1 (Except.ok ())).1 (by decide) (by decide)).2.1
  · exact ((connect_retry_policy 1 (Except.ok ())).1 (by decide) (by decide)).1
  · exact ((connect_retry_policy 1 (Except.ok ())).1 (by decide) (by decide)).2.2.1
  · exact ((connect_retry_policy 3 (Except.ok ())).2 (by decide)).1
  · exact ((connect_retry_policy 3 (Except.ok ())).2 (by decide)).2.1

/-- C7: peer rediscovery during a connect retry is fire-and-forget: for
any outcome of the discoverPeers call, the retry of initiateConnection
with attempt + 1 after PEER_REDISCOVERY_DELAY_MS is scheduled
unconditionally, exactly one discoverPeers call is made, the failure
callback is not invoked, the rediscovery outcome changes nothing but the
log trail, and the outcome itself appears only as one log entry. -/
theorem rediscovery_fire_and_forget (attempt : Nat) (r r2 : Except Int Unit) :
    (ConnMgr.retryBranch attempt r).scheduledRetry =
      some (ConnMgr.PEER_REDISCOVERY_DELAY_MS, attempt + 1) ∧
    (ConnMgr.retryBranch attempt r).discoverPeersCalls = 1 ∧
    (ConnMgr.retryBranch attempt r).failureCalls = 0 ∧
    { ConnMgr.retryBranch attempt r with logs := [] } =
      { ConnMgr.retryBranch attempt r2 with logs := [] } ∧
    (ConnMgr.retryBranch attempt r).logs =
      [ConnMgr.LogMsg.connectError attempt, ConnMgr.LogMsg.refreshingPeers] ++
        (match r with
          | Except.ok _ => [ConnMgr.LogMsg.refreshTriggered]
          | Except.error code2 => [ConnMgr.LogMsg.refreshFailed code2]) := by
  refine ⟨rfl, rfl, rfl, ?_, rfl⟩
  cases r <;> cases r2 <;> rfl

/-- C4: when every resolution stage fails (clientIp still null), the code
first calls removeGroup and only then fires the failure callback exactly
once; a failed teardown is folded into the message "Could not resolve
client IP, cleanup failed" instead of being propagated, so both teardown
outcomes end in exactly one onFailure invocation and zero onConnected
invocations, with removeGroup first. -/
theorem resolution_failure_teardown (rg : Except Int Unit) :
    Teardown.completeResolution none rg =
      [Teardown.CompEv.removeGroup, Teardown.CompEv.onFailure (Teardown.cleanupMsg rg)] ∧
    (Teardown.completeResolution none rg).countP Teardown.isFailureEv = 1 ∧
    (Teardown.completeResolution none rg).countP Teardown.isConnectedEv = 0 ∧
    (Teardown.completeResolution none rg).head? = some Teardown.CompEv.removeGroup ∧
    Teardown.cleanupMsg (Except.error 0) = "Could not resolve client IP, cleanup failed" ∧
    Teardown.cleanupMsg (Except.ok ()) = "Could not resolve client IP" := by
  cases rg <;> exact ⟨rfl, rfl, rfl, rfl, rfl, rfl⟩

/-- C6: the ARP-table read never surfaces an error: a failed read of the
cache lands in the catch block and yields null, and a cache whose rows
are all unparseable (the malformed case) also yields null. -/
theorem arp_read_never_raises :
    (∀ msg : String, Arp.resolveAnyP2pClientFromArpRead (Except.error msg) = none) ∧
    (∀ rows : List (Option Arp.Ip4), (∀ r ∈ rows, r = none) →
      Arp.resolveAnyP2pClientFromArp rows = none) := by
  constructor
  · intro _; rfl
  · intro rows h
    induction rows with
    | nil => rfl
    | cons r rest ih =>
      have hr : r = none := h r (by simp)
      subst hr
      exact ih (fun x hx => h x (by simp [hx]))

theorem arp_read_never_raises_witness :
    Arp.resolveAnyP2pClientFromArpRead (Except.error "read failed") = none ∧
    Arp.resolveAnyP2pClientFromArp [none, none, none] = none :=
  ⟨arp_read_never_raises.1 "read failed",
   arp_read_never_raises.2 [none, none, none] (by decide)⟩

/-- C8: with group info unavailable (null), the watcher re-invokes itself
with attempt + 1 after CONNECTION_RETRY_DELAY_MS - for every attempt
value, i.e. with no attempt cap; with group info available but no client
matching the requested peer address, the outcome is the immediate
ClientNotFound failure, not a retry. -/
theorem group_watcher_policy (peer : String) (attempt : Nat) :
    (Watcher.resolveClientIpFromGroupStep none peer attempt =
      Watcher.WatcherAction.retry Watcher.CONNECTION_RETRY_DELAY_MS (attempt + 1)) ∧
    (∀ g : GroupInfo, g.clients.find? (fun c => c.deviceAddress == peer) = none →
      Watcher.resolveClientIpFromGroupStep (some g) peer attempt =
        Watcher.WatcherAction.failClientNotFound) := by
  constructor
  · rfl
  · intro g h
    simp [Watcher.resolveClientIpFromGroupStep, h]

theorem group_watcher_policy_witness :
    (Watcher.resolveClientIpFromGroupStep none "aa:bb:cc:dd:ee:ff" 7 =
      Watcher.WatcherAction.retry Watcher.CONNECTION_RETRY_DELAY_MS 8) ∧
    (Watcher.resolveClientIpFromGroupStep (some ⟨[]⟩) "aa:bb:cc:dd:ee:ff" 1 =
      Watcher.WatcherAction.failClientNotFound) :=
  ⟨(group_watcher_policy "aa:bb:cc:dd:ee:ff" 7).1,
   (group_watcher_policy "aa:bb:cc:dd:ee:ff" 1).2 ⟨[]⟩ rfl⟩

/-- C9: a ConnectedClient's resolved IP is write-once - resolving a
client that already holds an IP returns that stored IP unchanged with an
empty run trace (no stage executed), and whatever IP a resolution stores
is returned unchanged, again without any stage running, by every later
resolution. -/
theorem client_ip_write_once (c : ConnectedClient) (env env2 : Resolver.ResolveEnv)
    (ip : String) :
    (c.resolvedIp = some ip →
      Resolver.resolveClient c env = (c, some ip, [])) ∧
    (∀ ip0 : String, (Resolver.resolveClient c env).1.resolvedIp = some ip0 →
      (Resolver.resolveClient (Resolver.resolveClient c env).1 env2).1 =
        (Resolver.resolveClient c env).1 ∧
      (Resolver.resolveClient (Resolver.resolveClient c env).1 env2).2.1 = some ip0 ∧
      (Resolver.resolveClient (Resolver.resolveClient c env).1 env2).2.2 = []) := by
  have key : ∀ (c2 : ConnectedClient) (e : Resolver.ResolveEnv) (ip2 : String),
      c2.resolvedIp = some ip2 → Resolver.resolveClient c2 e = (c2, some ip2, []) := by
    intro c2 e ip2 h2
    simp [Resolver.resolveClient, h2]
  constructor
  · intro h
    exact key c env ip h
  · intro ip0 h
    rw [key _ env2 ip0 h]
    exact ⟨rfl, rfl, rfl⟩

theorem client_ip_write_once_witness :
    Resolver.resolveClient ⟨"aa:bb:cc:dd:ee:ff", some "192.168.49.12"⟩
        ⟨none, fun _ => none, none⟩ =
      (⟨"aa:bb:cc:dd:ee:ff", some "192.168.49.12"⟩, some "192.168.49.12", []) :=
  (client_ip_write_once ⟨"aa:bb:cc:dd:ee:ff", some "192.168.49.12"⟩
    ⟨none, fun _ => none, none⟩ ⟨none, fun _ => none, none⟩ "192.168.49.12").1 rfl

/-- C2: the resolver's stage precedence is the total order MAC-based ARP,
MAC-free ARP, ARP retry (iterations 1..3, each preceded by a 2000 ms
delay), subnet scan; every run returns the value produced by the earliest
stage that succeeds, the executed stages are exactly the stages up to and
including the first success (no later stage runs after a success), and
the trace equals the spec-side reference trace. -/
theorem resolver_stage_precedence (env : Resolver.ResolveEnv) :
    Resolver.resolvePipeline env = (Resolver.specResolve env, Resolver.specTrace env) := by
  rcases h0 : env.macArp with _ | ip0 <;>
    rcases h1 : env.arpSnapshots 0 with _ | ip1 <;>
    rcases h2 : env.arpSnapshots 1 with _ | ip2 <;>
    rcases h3 : env.arpSnapshots 2 with _ | ip3 <;>
    rcases h4 : env.arpSnapshots 3 with _ | ip4 <;>
    rcases h5 : env.scan with _ | ip5 <;>
    simp [Resolver.resolvePipeline, Resolver.arpRetryStep, Resolver.stageList,
      Resolver.specResolve, Resolver.specTrace, Resolver.specExecuted,
      Resolver.takeToFirstHit, Resolver.stageEvents, Resolver.stageEventsConcat,
      List.findSome?, h0, h1, h2, h3, h4, h5]

/-- Pointwise agreement of the loop test of resolveAnyP2pClientFromArp
with the spec predicate: subnet membership plus owner exclusion. -/
theorem arpClientCheck_iff (ip : Arp.Ip4) :
    Arp.arpClientCheck ip = true ↔
      (Arp.inP2pSubnet ip && ip != Arp.groupOwnerIp) = true := by
  rcases ip with ⟨a, b, c, d⟩
  simp [Arp.arpClientCheck, Arp.inP2pSubnet, Arp.groupOwnerIp, Arp.Ip4.mk.injEq]
  tauto

/-- C5: the MAC-free ARP stage scans the (parsed) ARP rows in order and
returns the first entry whose IP lies in the group subnet 192.168.49.0/24
and differs from the group owner's own address 192.168.49.1; null when no
such entry exists. -/
theorem arp_macfree_first_match (rows : List (Option Arp.Ip4)) :
    Arp.resolveAnyP2pClientFromArp rows = Arp.specFirstClient rows := by
  induction rows with
  | nil => rfl
  | cons r rest ih =>
    cases r with
    | none =>
      simpa [Arp.specFirstClient] using ih
    | some ip =>
      by_cases h : Arp.arpClientCheck ip = true
      · have h2 := (arpClientCheck_iff ip).mp h
        simp [Arp.resolveAnyP2pClientFromArp, Arp.specFirstClient, h, h2]
      · have h3 : Arp.arpClientCheck ip = false := Bool.eq_false_iff.mpr h
        have h2 : (Arp.inP2pSubnet ip && ip != Arp.groupOwnerIp) = false :=
          Bool.eq_false_iff.mpr (fun ht => h ((arpClientCheck_iff ip).mpr ht))
        simp only [Arp.resolveAnyP2pClientFromArp, Arp.specFirstClient,
          List.filterMap_cons, id_eq, h3, Bool.false_eq_true, if_false,
          List.find?_cons, h2] at ih ⊢
        exact ih

/-- The joint await of a batch produces exactly the reachable hosts of the
batch, in address order, rendered as candidate addresses. -/
theorem filterMap_probe (env : Scan.ProbeEnv) (l : List Nat) :
    (l.filterMap (fun i =>
        if env.reachable i Scan.PROBE_TIMEOUT_MS then some (Scan.ipOfHost i) else none)) =
      (l.filter (Scan.reachHit env)).map Scan.ipOfHost := by
  induction l with
  | nil => rfl
  | cons x xs ih =>
    by_cases h : env.reachable x Scan.PROBE_TIMEOUT_MS <;>
      simp [Scan.reachHit, List.filterMap_cons, List.filter_cons, h, ih]

/-- The batch loop returns the first reachable address of the
concatenated batch ranges, and probes exactly the batches up to and
including the first one containing a reachable address. -/
theorem scanGo_eq (env : Scan.ProbeEnv) (bs : List (Nat × Nat)) :
    Scan.scanGo env bs =
      (((((bs.map Scan.batchHosts).flatten).filter (Scan.reachHit env)).head?).map
        Scan.ipOfHost,
       ((Scan.batchesUntilHit env bs).map
         (fun b => (Scan.batchHosts b).map (fun i => (i, Scan.PROBE_TIMEOUT_MS)))).flatten) := by
  induction bs with
  | nil => rfl
  | cons b bs ih =>
    have hpr : Scan.probeResults env b =
        ((Scan.batchHosts b).filter (Scan.reachHit env)).map Scan.ipOfHost :=
      filterMap_probe env (Scan.batchHosts b)
    rcases hF : (Scan.batchHosts b).filter (Scan.reachHit env) with _ | ⟨x, xs⟩
    · have hany : (Scan.batchHosts b).any (Scan.reachHit env) = false := by
        rw [Bool.eq_false_iff]
        intro hone
        rcases List.any_eq_true.mp hone with ⟨y, hy, hpy⟩
        have hmem : y ∈ (Scan.batchHosts b).filter (Scan.reachHit env) :=
          List.mem_filter.mpr ⟨hy, hpy⟩
        rw [hF] at hmem
        exact absurd hmem (List.not_mem_nil y)
      simp [Scan.scanGo, hpr, hF, ih, Scan.batchesUntilHit, hany, List.filter_append]
    · have hany : (Scan.batchHosts b).any (Scan.reachHit env) = true := by
        have hx : x ∈ (Scan.batchHosts b).filter (Scan.reachHit env) := by
          rw [hF]; exact List.mem_cons_self x xs
        rcases List.mem_filter.mp hx with ⟨hmem, hpx⟩
        exact List.any_eq_true.mpr ⟨x, hmem, hpx⟩
      simp [Scan.scanGo, hpr, hF, Scan.batchesUntilHit, hany, List.filter_append]

/-- C3, counterexample to the claim as stated: the scanner does not
partition the host range into batches of 25 addresses throughout - the
final visited batch is (252, 254), which contains 3 addresses, not 25. -/
theorem subnet_scan_last_batch_small :
    (252, 254) ∈ Scan.scanBatches ∧ (Scan.batchHosts (252, 254)).length = 3 ∧
    ¬ (Scan.batchHosts (252, 254)).length = 25 := by decide

/-- C3 as amended: the scanner covers the host range 2..254 with batches
of 25 addresses except the final batch (252, 254) of 3, visits them in
strictly ascending order starting with (2, 26) then (27, 51), probes
every address of a batch with the fixed 500 ms per-probe timeout, halts
at the first batch containing a reachable address returning the first
reachable address of that batch (equivalently, of the whole range), and
returns no result when no address is reachable. -/
theorem subnet_scan_amended (env : Scan.ProbeEnv) :
    Scan.scanBatches =
      [(2, 26), (27, 51), (52, 76), (77, 101), (102, 126), (127, 151), (152, 176),
       (177, 201), (202, 226), (227, 251), (252, 254)] ∧
    Scan.scanBatches.map (fun b => (Scan.batchHosts b).length) =
      [25, 25, 25, 25, 25, 25, 25, 25, 25, 25, 3] ∧
    (Scan.scanBatches.map Scan.batchHosts).flatten = List.range' 2 253 ∧
    (Scan.discoverP2pClientIp env).1 = Scan.specScanResult env ∧
    (Scan.discoverP2pClientIp env).2 = Scan.specProbes env := by
  have h := scanGo_eq env Scan.scanBatches
  have hcov : ((Scan.scanBatches.map Scan.batchHosts).flatten) = List.range' 2 253 := by
    decide
  refine ⟨by decide, by decide, hcov, ?_, ?_⟩
  · unfold Scan.discoverP2pClientIp Scan.specScanResult
    rw [h, hcov]
  · unfold Scan.discoverP2pClientIp Scan.specProbes
    rw [h]

/-- A run that exited with status 1 is atomic: nothing was written. -/
theorem atomic_exitRun : Patch.atomicRun Patch.exitRun :=
  Or.inl ⟨rfl, rfl⟩

/-- A completed run is atomic: its trace is the read and one final write. -/
theorem atomic_writeRun (out : List Char) : Patch.atomicRun (Patch.writeRun out) :=
  Or.inr ⟨rfl, String.mk out, rfl⟩

/-- C10: each patch script is atomic with respect to its target file: for
every file content, a run either exits with status 1 having performed no
write, or finishes with status 0 having performed exactly one write, at
the very end, after the single read; and when the script's first required
marker is absent the run exits with status 1 with the file untouched. -/
theorem patch_scripts_atomic (file : String) :
    Patch.atomicRun (Patch.runFixConnectionManager file) ∧
    Patch.atomicRun (Patch.runFixGoIpV2 file) ∧
    Patch.atomicRun (Patch.runFixGoIpV3 file) ∧
    (Patch.listContains Patch.old_const.data
        (Patch.replaceAllL Patch.old_interp.data Patch.new_interp.data
          (Patch.normalizeNl file.data)) = false →
      Patch.runFixConnectionManager file = Patch.exitRun) ∧
    (Patch.v2FindScope Patch.v2MarkerResolveFunc.data Patch.v2MarkerScopeLaunch.data none 0
        (Patch.splitLines (Patch.normalizeNl file.data)) = none →
      Patch.runFixGoIpV2 file = Patch.exitRun) ∧
    (Patch.findLineIdx (fun l => Patch.listContains Patch.v3MarkerGroupNull.data l)
        (Patch.splitLines (Patch.normalizeNl file.data)) 0 = none →
      Patch.runFixGoIpV3 file = Patch.exitRun) := by
  refine ⟨?_, ?_, ?_, ?_, ?_, ?_⟩
  · simp only [Patch.runFixConnectionManager]
    repeat' split
    all_goals first | exact atomic_exitRun | apply atomic_writeRun
  · simp only [Patch.runFixGoIpV2]
    repeat' split
    all_goals first | exact atomic_exitRun | apply atomic_writeRun
  · simp only [Patch.runFixGoIpV3]
    repeat' split
    all_goals first | exact atomic_exitRun | apply atomic_writeRun
  · intro h
    simp [Patch.runFixConnectionManager, h]
  · intro h
    simp [Patch.runFixGoIpV2, h]
  · intro h
    simp [Patch.runFixGoIpV3, h]

theorem patch_scripts_atomic_witness :
    Patch.runFixConnectionManager "" = Patch.exitRun ∧
    Patch.runFixGoIpV2 "" = Patch.exitRun ∧
    Patch.runFixGoIpV3 "" = Patch.exitRun :=
  ⟨(patch_scripts_atomic "").2.2.2.1 (by decide),
   (patch_scripts_atomic "").2.2.2.2.1 (by decide),
   (patch_scripts_atomic "").2.2.2.2.2 (by decide)⟩


end RescueNet
